import Mathlib

/-!
Verification of the token acquisition and refresh decision engine of
`src/hooks/auth_manager.py` (class `AuthenticationManager`).

The Python methods are shallowly embedded as pure Lean functions.  All
external inputs of one call (environment variables, file system state,
HTTP responses, the interactive login outcome) are collected in a `World`
record; the functions return their value together with an `Effects`
record describing the observable side effects (which network requests
were issued, what was persisted, where a returned token came from).
Timestamps are modelled as integers (seconds); Python dictionaries of
token payloads are modelled as records of optional fields, where `none`
stands for an absent key.
-/

namespace AuthManager

/-- A token payload dictionary: a JSON object with the keys actually read
by the code, each optional (`none` = key absent). -/
structure TokenDict where
  access_token : Option String
  refresh_token : Option String
  expires_in : Option Int
  saved_at : Option String
  token_type : Option String
deriving DecidableEq, Repr

/-- Result of one HTTP request: a status code with a parsed body, or a
`requests.exceptions.RequestException` (network error / timeout). -/
inductive HttpResult (β : Type) where
  | ok (status : Nat) (body : β)
  | netError
deriving DecidableEq, Repr

/-- `Auth0Config` as used by the manager (loaded by
`Auth0Config.load_from_env` in `oauth_login`). -/
structure Auth0Config where
  domain : String
  client_id : String
  audience : String
  scopes : List String
deriving DecidableEq, Repr

/-- Where a token returned by the manager came from. -/
inductive TokenSource where
  | legacy
  | stored
  | refreshed
  | login
deriving DecidableEq, Repr

/-- All external inputs of a single manager call. -/
structure World where
  /-- `os.environ.get("AUTH_TOKEN_PATH")`. -/
  env_token_path : Option String
  /-- `os.path.exists(env_token_path)`. -/
  env_path_exists : Bool
  /-- Parsed content of the legacy token file; `none` = JSON or IO error. -/
  legacy_file : Option TokenDict
  /-- `os.environ.get("SERVER_URL")`. -/
  server_url : Option String
  /-- Result of the `GET {server}/health` probe, were it issued. -/
  probeResponse : HttpResult Unit
  /-- `self.storage.load_tokens()`; `none` also covers an empty dict. -/
  storedTokens : Option TokenDict
  /-- `self.storage.token_file.exists()`. -/
  token_file_exists : Bool
  /-- `self.storage.token_file.stat().st_mtime`, in seconds. -/
  token_file_mtime : Int
  /-- `datetime.now()`, in seconds. -/
  now : Int
  /-- `self.config` after `_load_config` (`none` = load failed). -/
  config : Option Auth0Config
  /-- Result of the `POST https://{domain}/oauth/token` exchange, were it
  issued. -/
  refreshResponse : HttpResult TokenDict
  /-- Outcome of `OAuth2PKCEFlow.run_authentication_flow()`. -/
  loginFlowSucceeds : Bool
  /-- `self.storage.load_tokens()` after a successful interactive login. -/
  tokensAfterLogin : Option TokenDict
deriving DecidableEq, Repr

/-- Observable side effects of a manager call. -/
structure Effects where
  /-- A `GET /health` probe request was issued. -/
  probeRequest : Bool
  /-- A `POST /oauth/token` refresh request was issued. -/
  refreshRequest : Bool
  /-- The interactive login flow was run. -/
  loginFlowRun : Bool
  /-- Payload persisted via `self.storage.save_tokens`, if any. -/
  savedTokens : Option TokenDict
  /-- Origin of the returned token, if one was returned. -/
  source : Option TokenSource
deriving DecidableEq, Repr

/-- No side effects yet. -/
def noEffects : Effects :=
  { probeRequest := false, refreshRequest := false, loginFlowRun := false,
    savedTokens := none, source := none }

/-- `AuthenticationManager._load_token_from_file`: returns
`token_data.get("access_token")`, or `None` on a JSON/IO error. -/
def load_token_from_file (file : Option TokenDict) : Option String :=
  match file with
  | none => none
  | some d => d.access_token

/-- `AuthenticationManager._is_token_valid`, as the pair
(return value, whether the health probe request was issued).
`if not server_url` is Python falsiness: if `SERVER_URL` is unset or the
empty string it returns `False` with no request; otherwise it issues the
probe and accepts status 200 or 401, while any other status or a network
error yields `False`. -/
def is_token_valid (server_url : Option String) (probe : HttpResult Unit) :
    Bool × Bool :=
  match server_url with
  | none => (false, false)
  | some u =>
    if u == "" then (false, false)
    else
      match probe with
      | HttpResult.ok s _ => (s == 200 || s == 401, true)
      | HttpResult.netError => (false, true)

/-- `AuthenticationManager._is_token_fresh`: requires the keys
`saved_at` and `expires_in` in the payload, requires the storage file to
exist, and then compares `now` with the file modification time plus
`expires_in - 300` seconds.  The value of `saved_at` is never read. -/
def is_token_fresh (tokens : TokenDict) (fileExists : Bool)
    (mtime now : Int) : Bool :=
  match tokens.saved_at, tokens.expires_in with
  | some _, some e =>
    if fileExists then decide (now < mtime + (e - 300)) else false
  | _, _ => false

/-- `AuthenticationManager._refresh_access_token`, as the triple
(return value, whether the refresh request was issued, payload saved via
`save_tokens`).  With no config it returns `None` before any request.
On HTTP 200 the response body is merged with the prior refresh token when
the body lacks one, saved, and returned; any other status or a network
error yields `None`. -/
def refresh_access_token (config : Option Auth0Config) (refreshTok : String)
    (resp : HttpResult TokenDict) :
    Option TokenDict × Bool × Option TokenDict :=
  match config with
  | none => (none, false, none)
  | some _ =>
    match resp with
    | HttpResult.netError => (none, true, none)
    | HttpResult.ok status body =>
      if status == 200 then
        let newTokens :=
          if body.refresh_token.isNone then
            { body with refresh_token := some refreshTok }
          else body
        (some newTokens, true, some newTokens)
      else (none, true, none)

/-- The legacy fixed-path step of `get_valid_token` (lines 40-45), as the
pair (token returned by this step, whether the probe request was issued).
Python truthiness: an empty string environment value or token is falsy. -/
def legacy_step (w : World) : Option String × Bool :=
  match w.env_token_path with
  | none => (none, false)
  | some p =>
    if p == "" then (none, false)
    else if !w.env_path_exists then (none, false)
    else
      match load_token_from_file w.legacy_file with
      | none => (none, false)
      | some t =>
        if t == "" then (none, false)
        else
          let vr := is_token_valid w.server_url w.probeResponse
          (if vr.1 then some t else none, vr.2)

/-- The stored-credential part of `get_valid_token` (lines 47-62): the
freshness check, then the refresh exchange when a refresh token is
present.  `pr` is the probe flag inherited from the legacy step. -/
def stored_step (w : World) (pr : Bool) : Option String × Effects :=
  match w.storedTokens with
  | none => (none, { noEffects with probeRequest := pr })
  | some tokens =>
    if is_token_fresh tokens w.token_file_exists w.token_file_mtime w.now then
      (tokens.access_token,
        { noEffects with
          probeRequest := pr,
          source := if tokens.access_token.isSome then some TokenSource.stored
                    else none })
    else
      match tokens.refresh_token with
      | none => (none, { noEffects with probeRequest := pr })
      | some r =>
        if r == "" then (none, { noEffects with probeRequest := pr })
        else
          match refresh_access_token w.config r w.refreshResponse with
          | (some nt, req, saved) =>
            (nt.access_token,
              { noEffects with
                probeRequest := pr,
                refreshRequest := req,
                savedTokens := saved,
                source := if nt.access_token.isSome
                          then some TokenSource.refreshed else none })
          | (none, req, saved) =>
            (none,
              { noEffects with
                probeRequest := pr,
                refreshRequest := req,
                savedTokens := saved })

/-- `AuthenticationManager.get_valid_token`: the legacy step, then the
stored-credential step, otherwise `None`. -/
def get_valid_token (w : World) : Option String × Effects :=
  match legacy_step w with
  | (some t, pr) =>
    (some t,
      { noEffects with
        probeRequest := pr,
        source := some TokenSource.legacy })
  | (none, pr) => stored_step w pr

/-- `AuthenticationManager.authenticate_user`, as the pair
(return value, whether the interactive flow was run).  With no config it
declines immediately; otherwise it runs the flow and on success reloads
the storage and returns its access token. -/
def authenticate_user (config : Option Auth0Config) (loginSucceeds : Bool)
    (tokensAfter : Option TokenDict) : Option String × Bool :=
  match config with
  | none => (none, false)
  | some _ =>
    if loginSucceeds then
      (match tokensAfter with
       | some tks => tks.access_token
       | none => none, true)
    else (none, true)

/-- Outcome of `ensure_authenticated`: a token, or `SystemExit(code)`. -/
inductive EnsureResult where
  | token (t : String)
  | exit (code : Nat)
deriving DecidableEq, Repr

/-- Python truthiness of an optional string: `None` and `""` are falsy. -/
def truthy (s : Option String) : Option String :=
  match s with
  | some t => if t == "" then none else some t
  | none => none

/-- `AuthenticationManager.ensure_authenticated`: returns the token from
`get_valid_token` when truthy, otherwise escalates to
`authenticate_user`, and raises `SystemExit(1)` when that also yields no
truthy token. -/
def ensure_authenticated (w : World) : EnsureResult × Effects :=
  match get_valid_token w with
  | (tok, eff) =>
    match truthy tok with
    | some t => (EnsureResult.token t, eff)
    | none =>
      match authenticate_user w.config w.loginFlowSucceeds w.tokensAfterLogin with
      | (tok2, flowRun) =>
        match truthy tok2 with
        | some t =>
          (EnsureResult.token t,
            { eff with
              loginFlowRun := flowRun,
              source := some TokenSource.login })
        | none =>
          (EnsureResult.exit 1,
            { eff with loginFlowRun := flowRun, source := none })

/-- Modelled from the spec: `TokenStorage.clear_tokens` — the Credential
Store `clear()` operation, defined in the `oauth_login` module which is
not among these sources — removes the stored credential (spec 4.1:
"removes the stored credential; idempotent").  After it, a load returns
nothing and the storage file is gone.  `clear_credentials` calls it and
changes nothing else. -/
def clear_credentials (w : World) : World :=
  { w with storedTokens := none, token_file_exists := false }

/-! Sample data used to evaluate the definitions at concrete inputs. -/

/-- A well-formed stored credential payload. -/
def sampleTokens : TokenDict :=
  { access_token := some "S", refresh_token := some "R",
    expires_in := some 3600, saved_at := some "hash",
    token_type := some "Bearer" }

/-- A stored credential payload lacking the `saved_at` key. -/
def noSavedAtTokens : TokenDict :=
  { access_token := some "S", refresh_token := some "R",
    expires_in := some 3600, saved_at := none, token_type := some "Bearer" }

/-- A refresh response body that carries no `refresh_token` key. -/
def refreshBody : TokenDict :=
  { access_token := some "N", refresh_token := none,
    expires_in := some 3600, saved_at := none, token_type := some "Bearer" }

/-- A legacy token file payload. -/
def legacyTokens : TokenDict :=
  { access_token := some "A", refresh_token := none, expires_in := none,
    saved_at := none, token_type := none }

/-- A loaded Auth0 configuration. -/
def sampleConfig : Auth0Config :=
  { domain := "example.auth0.com", client_id := "cid",
    audience := "https://api.example.com", scopes := ["openid"] }

/-- Base world: no legacy path, a stored credential saved at time 0,
current time 600 (the credential is fresh), config loaded. -/
def baseWorld : World :=
  { env_token_path := none, env_path_exists := false, legacy_file := none,
    server_url := some "https://srv", probeResponse := HttpResult.netError,
    storedTokens := some sampleTokens, token_file_exists := true,
    token_file_mtime := 0, now := 600, config := some sampleConfig,
    refreshResponse := HttpResult.ok 200 refreshBody,
    loginFlowSucceeds := false, tokensAfterLogin := none }

/-- `baseWorld` observed at time 3400: the stored credential is stale. -/
def staleWorld : World := { baseWorld with now := 3400 }

/-- `staleWorld` whose refresh exchange answers HTTP 401. -/
def stale401World : World :=
  { staleWorld with refreshResponse := HttpResult.ok 401 refreshBody }

/-- A world with a valid legacy token and a stored credential. -/
def legacyWorld : World :=
  { baseWorld with
    env_token_path := some "/tmp/token.json",
    env_path_exists := true,
    legacy_file := some legacyTokens,
    probeResponse := HttpResult.ok 200 () }

/-- A world with nothing available: no config, no legacy token, no stored
credential. -/
def emptyWorld : World :=
  { baseWorld with
    storedTokens := none, token_file_exists := false, config := none }

/-- A world whose legacy probe answers HTTP 500. -/
def probe500World : World :=
  { legacyWorld with probeResponse := HttpResult.ok 500 () }

/-! Helper lemmas shared by the claim theorems. -/

/-- With a loaded config, the refresh exchange always issues its request. -/
theorem refresh_request_issued (c : Auth0Config) (r : String)
    (resp : HttpResult TokenDict) :
    (refresh_access_token (some c) r resp).2.1 = true := by
  cases resp with
  | netError => rfl
  | ok s body =>
    simp only [refresh_access_token]
    split <;> rfl

/-- A refresh response that is not HTTP 200 yields no token and saves
nothing. -/
theorem refresh_fail_none (c : Auth0Config) (r : String)
    (resp : HttpResult TokenDict)
    (h : ∀ body, resp ≠ HttpResult.ok 200 body) :
    (refresh_access_token (some c) r resp).1 = none ∧
    (refresh_access_token (some c) r resp).2.2 = none := by
  cases resp with
  | netError => exact ⟨rfl, rfl⟩
  | ok s body =>
    have hs : s ≠ 200 := by
      intro h2
      exact h body (by rw [h2])
    simp [refresh_access_token, hs]

/-- Without a config, the refresh exchange declines before any request. -/
theorem refresh_no_config (r : String) (resp : HttpResult TokenDict) :
    refresh_access_token none r resp = (none, false, none) := rfl

/-- With a loaded config the interactive flow is always run by
`authenticate_user`. -/
theorem authenticate_user_runs_flow (c : Auth0Config) (ls : Bool)
    (ta : Option TokenDict) :
    (authenticate_user (some c) ls ta).2 = true := by
  cases ls <;> rfl

/-- Splitting `get_valid_token` on the legacy outcome. -/
theorem get_valid_token_legacy_none (w : World)
    (h : (legacy_step w).1 = none) :
    get_valid_token w = stored_step w (legacy_step w).2 := by
  have h2 : legacy_step w = (none, (legacy_step w).2) := by
    rw [← h]
  simp only [get_valid_token]
  rw [h2]

/-- Splitting `get_valid_token` when the legacy step returned a token. -/
theorem get_valid_token_legacy_some (w : World) (t : String)
    (h : (legacy_step w).1 = some t) :
    get_valid_token w =
      (some t,
        { noEffects with
          probeRequest := (legacy_step w).2,
          source := some TokenSource.legacy }) := by
  have h2 : legacy_step w = (some t, (legacy_step w).2) := by
    rw [← h]
  simp only [get_valid_token]
  rw [h2]

/-! Claim theorems. -/

/-- Claim C1: for every stored credential carrying the keys `saved_at`
and `expires_in = E`, with the storage file present and last modified at
time `T`, the freshness check `_is_token_fresh` returns true iff the
current time is strictly less than `T + E - 300`; in particular at
exactly `T + E - 300` it returns false. -/
theorem C1_freshness_boundary (tokens : TokenDict) (T E now : Int)
    (hs : tokens.saved_at.isSome = true)
    (he : tokens.expires_in = some E) :
    (is_token_fresh tokens true T now = true ↔ now < T + E - 300) ∧
    is_token_fresh tokens true T (T + E - 300) = false := by
  obtain ⟨s, hs2⟩ := Option.isSome_iff_exists.mp hs
  refine ⟨?_, ?_⟩ <;> simp [is_token_fresh, hs2, he] <;> omega

/-- Witness for C1: the sample credential (`expires_in = 3600`) saved at
time 0 is fresh at time 600 and no longer fresh at time 3300. -/
theorem C1_witness :
    ((is_token_fresh sampleTokens true 0 600 = true ↔
        (600 : Int) < 0 + 3600 - 300) ∧
      is_token_fresh sampleTokens true 0 (0 + 3600 - 300) = false) :=
  C1_freshness_boundary sampleTokens 0 3600 600 (by decide) (by decide)

/-- Claim C7: when `SERVER_URL` is present and nonempty (so the token is
actually probed against the health endpoint), the legacy validity probe
`_is_token_valid` accepts exactly HTTP 200 and HTTP 401; any other
status or a network error yields false, and then the legacy step
contributes no token. -/
theorem C7_probe_accepts_200_and_401 (w : World) (url : String)
    (hurl : w.server_url = some url) (hne : url ≠ "") :
    ((is_token_valid w.server_url w.probeResponse).1 = true ↔
      w.probeResponse = HttpResult.ok 200 () ∨
      w.probeResponse = HttpResult.ok 401 ()) ∧
    (¬(w.probeResponse = HttpResult.ok 200 () ∨
        w.probeResponse = HttpResult.ok 401 ()) →
      (legacy_step w).1 = none) := by
  have hne2 : (url == "") = false := by
    simp [hne]
  have hiff : (is_token_valid w.server_url w.probeResponse).1 = true ↔
      w.probeResponse = HttpResult.ok 200 () ∨
      w.probeResponse = HttpResult.ok 401 () := by
    rw [hurl]
    cases hp : w.probeResponse with
    | netError => simp [is_token_valid, hne2]
    | ok s b =>
      cases b
      simp only [is_token_valid, hne2, Bool.false_eq_true, if_false,
        Bool.or_eq_true, beq_iff_eq, HttpResult.ok.injEq, and_true]
  refine ⟨hiff, fun hnot => ?_⟩
  have hfalse : (is_token_valid w.server_url w.probeResponse).1 = false := by
    rcases hb : (is_token_valid w.server_url w.probeResponse).1 with _ | _
    · rfl
    · exact absurd (hiff.mp hb) hnot
  unfold legacy_step
  cases hp : w.env_token_path with
  | none => rfl
  | some p =>
    simp only
    split
    · rfl
    · split
      · rfl
      · cases hl : load_token_from_file w.legacy_file with
        | none => rfl
        | some t =>
          simp only
          split
          · rfl
          · simp [hfalse]

/-- Witness for C7: a legacy probe answering HTTP 500 leaves the legacy
step without a token. -/
theorem C7_witness : (legacy_step probe500World).1 = none :=
  (C7_probe_accepts_200_and_401 probe500World "https://srv" (by decide)
      (by decide)).2
    (by decide)

/-- Claim C8: when `SERVER_URL` is absent, the validity probe returns
false without issuing any request, and the legacy step contributes no
token (and issues no probe) even when the legacy file holds an access
token. -/
theorem C8_no_server_url_no_probe (probe : HttpResult Unit) (w : World)
    (hurl : w.server_url = none) :
    is_token_valid none probe = (false, false) ∧
    legacy_step w = (none, false) := by
  refine ⟨rfl, ?_⟩
  unfold legacy_step
  cases hp : w.env_token_path with
  | none => rfl
  | some p =>
    simp only
    split
    · rfl
    · split
      · rfl
      · cases hl : load_token_from_file w.legacy_file with
        | none => rfl
        | some t =>
          simp only
          split
          · rfl
          · simp [is_token_valid, hurl]

/-- Witness for C8: the legacy world without `SERVER_URL` yields no
legacy token and no probe request. -/
theorem C8_witness :
    is_token_valid none (HttpResult.ok 200 ()) = (false, false) ∧
    legacy_step { legacyWorld with server_url := none } = (none, false) :=
  C8_no_server_url_no_probe (HttpResult.ok 200 ())
    { legacyWorld with server_url := none } (by decide)

/-- Claim C9: when the authorization configuration failed to load, the
refresh exchange returns no token and issues no request before any
network activity, and consequently no refresh request is ever issued by
`get_valid_token`, even when the stored credential has a refresh
token. -/
theorem C9_no_config_no_refresh_request (r : String)
    (resp : HttpResult TokenDict) (w : World) (hc : w.config = none) :
    refresh_access_token none r resp = (none, false, none) ∧
    (get_valid_token w).2.refreshRequest = false := by
  refine ⟨rfl, ?_⟩
  cases hl : (legacy_step w).1 with
  | some t =>
    rw [get_valid_token_legacy_some w t hl]
    rfl
  | none =>
    rw [get_valid_token_legacy_none w hl]
    unfold stored_step
    cases hst : w.storedTokens with
    | none => rfl
    | some tokens =>
      simp only
      split
      · rfl
      · cases hr : tokens.refresh_token with
        | none => rfl
        | some rr =>
          simp only
          split
          · rfl
          · simp [hc, refresh_no_config]

/-- Witness for C9: in the stale world stripped of its config, the
refresh step issues no request even though a refresh token is stored. -/
theorem C9_witness :
    refresh_access_token none "R" (HttpResult.ok 200 refreshBody) =
      (none, false, none) ∧
    (get_valid_token { staleWorld with config := none }).2.refreshRequest =
      false :=
  C9_no_config_no_refresh_request "R" (HttpResult.ok 200 refreshBody)
    { staleWorld with config := none } (by decide)

/-- Claim C10: the freshness check returns false whenever the payload
lacks the `saved_at` or the `expires_in` key, yet the value of
`saved_at` is never used: two payloads that agree on the presence of
`saved_at` and on `expires_in` get the same verdict, the timestamp
actually compared being the storage file modification time passed in. -/
theorem C10_saved_at_presence_only (tokens other : TokenDict) (fe : Bool)
    (m now : Int) :
    ((tokens.saved_at = none ∨ tokens.expires_in = none) →
      is_token_fresh tokens fe m now = false) ∧
    (tokens.saved_at.isSome = other.saved_at.isSome →
      tokens.expires_in = other.expires_in →
      is_token_fresh tokens fe m now = is_token_fresh other fe m now) := by
  constructor
  · intro h
    rcases h with h | h
    · unfold is_token_fresh
      rw [h]
    · unfold is_token_fresh
      rw [h]
      cases tokens.saved_at <;> rfl
  · intro h1 h2
    unfold is_token_fresh
    rw [h2]
    cases hs : tokens.saved_at <;> cases ho : other.saved_at
    · cases other.expires_in <;> rfl
    · rw [hs, ho] at h1
      simp at h1
    · rw [hs, ho] at h1
      simp at h1
    · cases other.expires_in <;> rfl

/-- Witness for C10: a payload missing `saved_at` is never fresh, and
changing only the `saved_at` value changes nothing. -/
theorem C10_witness :
    is_token_fresh noSavedAtTokens true 0 600 = false ∧
    is_token_fresh sampleTokens true 0 600 =
      is_token_fresh { sampleTokens with saved_at := some "other" }
        true 0 600 :=
  ⟨(C10_saved_at_presence_only noSavedAtTokens sampleTokens true 0 600).1
      (Or.inl rfl),
    (C10_saved_at_presence_only sampleTokens
        { sampleTokens with saved_at := some "other" } true 0 600).2
      rfl rfl⟩

/-- Claim C2 counterexample: in `baseWorld` the stored credential holds
the refresh token "R" and passes the freshness check, yet
`get_valid_token` returns the stored access token with no refresh
exchange attempted — contradicting "attempts the refresh-token exchange
regardless of whether the freshness check passed". -/
theorem C2_counterexample :
    sampleTokens.refresh_token = some "R" ∧
    is_token_fresh sampleTokens baseWorld.token_file_exists
      baseWorld.token_file_mtime baseWorld.now = true ∧
    (get_valid_token baseWorld).1 = some "S" ∧
    (get_valid_token baseWorld).2.refreshRequest = false := by
  refine ⟨rfl, by decide, rfl, rfl⟩

/-- Claim C2 amended: the refresh exchange is attempted only when the
freshness check failed.  When the stored credential is fresh its access
token is returned with no refresh request; when it is stale and holds a
refresh token (with a loaded config), the refresh request is issued. -/
theorem C2_refresh_only_when_stale (w : World) (tokens : TokenDict)
    (r : String)
    (hleg : (legacy_step w).1 = none)
    (hst : w.storedTokens = some tokens)
    (hr : tokens.refresh_token = some r)
    (hne : r ≠ "") :
    (is_token_fresh tokens w.token_file_exists w.token_file_mtime w.now =
        true →
      (get_valid_token w).1 = tokens.access_token ∧
      (get_valid_token w).2.refreshRequest = false) ∧
    (is_token_fresh tokens w.token_file_exists w.token_file_mtime w.now =
        false →
      ∀ c, w.config = some c →
        (get_valid_token w).2.refreshRequest = true) := by
  rw [get_valid_token_legacy_none w hleg]
  unfold stored_step
  rw [hst]
  constructor
  · intro hfresh
    simp [hfresh, noEffects]
  · intro hstale c hc
    simp only [hstale, if_false, hr]
    have hne2 : (r == "") = false := by
      simp [hne]
    simp only [hne2, if_false]
    rcases hra : refresh_access_token w.config r w.refreshResponse with
      ⟨nt, req, saved⟩
    have hreq : req = true := by
      have := refresh_request_issued c r w.refreshResponse
      rw [hc] at hra
      rw [hra] at this
      exact this
    cases nt <;> simp [hra, hreq]

/-- Witness for C2: in `baseWorld` (fresh) no refresh request is issued
and the stored token is returned; in `staleWorld` the request is
issued. -/
theorem C2_witness :
    ((get_valid_token baseWorld).1 = sampleTokens.access_token ∧
      (get_valid_token baseWorld).2.refreshRequest = false) ∧
    (get_valid_token staleWorld).2.refreshRequest = true :=
  ⟨(C2_refresh_only_when_stale baseWorld sampleTokens "R" (by decide) rfl
        rfl (by decide)).1 (by decide),
    (C2_refresh_only_when_stale staleWorld sampleTokens "R" (by decide) rfl
        rfl (by decide)).2 (by decide) sampleConfig rfl⟩

/-- Claim C3: a refresh exchange answering HTTP 200 with a body lacking
`refresh_token` persists the body merged with the original refresh token
unchanged, and the new access token from the response is returned by
`get_valid_token`. -/
theorem C3_refresh_token_preserved (w : World) (tokens body : TokenDict)
    (c : Auth0Config) (r a : String)
    (hleg : (legacy_step w).1 = none)
    (hst : w.storedTokens = some tokens)
    (hstale : is_token_fresh tokens w.token_file_exists w.token_file_mtime
      w.now = false)
    (hr : tokens.refresh_token = some r)
    (hne : r ≠ "")
    (hc : w.config = some c)
    (hresp : w.refreshResponse = HttpResult.ok 200 body)
    (hbody : body.refresh_token = none)
    (ha : body.access_token = some a) :
    refresh_access_token (some c) r (HttpResult.ok 200 body) =
      (some { body with refresh_token := some r }, true,
        some { body with refresh_token := some r }) ∧
    (get_valid_token w).2.savedTokens =
      some { body with refresh_token := some r } ∧
    (get_valid_token w).1 = some a := by
  have h200 : refresh_access_token (some c) r (HttpResult.ok 200 body) =
      (some { body with refresh_token := some r }, true,
        some { body with refresh_token := some r }) := by
    simp [refresh_access_token, hbody]
  refine ⟨h200, ?_, ?_⟩
  · rw [get_valid_token_legacy_none w hleg]
    unfold stored_step
    rw [hst]
    simp [hstale, hr, hne, hc, hresp, h200]
  · rw [get_valid_token_legacy_none w hleg]
    unfold stored_step
    rw [hst]
    simp [hstale, hr, hne, hc, hresp, h200, ha]

/-- Witness for C3: in `staleWorld` the HTTP 200 body `refreshBody`
lacks a refresh token; the persisted payload keeps "R" and the new
access token "N" is returned. -/
theorem C3_witness :
    refresh_access_token (some sampleConfig) "R"
        (HttpResult.ok 200 refreshBody) =
      (some { refreshBody with refresh_token := some "R" }, true,
        some { refreshBody with refresh_token := some "R" }) ∧
    (get_valid_token staleWorld).2.savedTokens =
      some { refreshBody with refresh_token := some "R" } ∧
    (get_valid_token staleWorld).1 = some "N" :=
  C3_refresh_token_preserved staleWorld sampleTokens refreshBody
    sampleConfig "R" "N" (by decide) rfl (by decide) rfl (by decide) rfl
    rfl rfl rfl

/-- After no valid token was found, `ensure_authenticated` escalates to
`authenticate_user`, which runs the interactive flow whenever a config
is loaded. -/
theorem ensure_flow_run_of_no_valid_token (w : World) (c : Auth0Config)
    (hc : w.config = some c) (h : (get_valid_token w).1 = none) :
    (ensure_authenticated w).2.loginFlowRun = true := by
  unfold ensure_authenticated
  rcases hgv : get_valid_token w with ⟨tok, eff⟩
  rw [hgv] at h
  simp only at h
  subst h
  rcases hau : authenticate_user w.config w.loginFlowSucceeds
      w.tokensAfterLogin with ⟨tok2, flowRun⟩
  have hfr : flowRun = true := by
    have h2 := authenticate_user_runs_flow c w.loginFlowSucceeds
      w.tokensAfterLogin
    rw [hc] at hau
    rw [hau] at h2
    exact h2
  subst hfr
  simp only [truthy]
  split <;> rfl

/-- Claim C4: a refresh exchange that answers a non-200 status or fails
on the network contributes no token, and `ensure_authenticated` falls
through to the interactive login escalation (here: the interactive flow
is actually run) instead of stopping at the refresh step. -/
theorem C4_refresh_failure_falls_through (w : World) (tokens : TokenDict)
    (c : Auth0Config) (r : String)
    (hleg : (legacy_step w).1 = none)
    (hst : w.storedTokens = some tokens)
    (hstale : is_token_fresh tokens w.token_file_exists w.token_file_mtime
      w.now = false)
    (hr : tokens.refresh_token = some r)
    (hne : r ≠ "")
    (hc : w.config = some c)
    (hfail : ∀ body, w.refreshResponse ≠ HttpResult.ok 200 body) :
    (refresh_access_token w.config r w.refreshResponse).1 = none ∧
    (get_valid_token w).1 = none ∧
    (ensure_authenticated w).2.loginFlowRun = true := by
  have h1 : (refresh_access_token w.config r w.refreshResponse).1 = none := by
    rw [hc]
    exact (refresh_fail_none c r w.refreshResponse hfail).1
  have h2 : (get_valid_token w).1 = none := by
    rw [get_valid_token_legacy_none w hleg]
    unfold stored_step
    rw [hst]
    simp only [hstale, hr]
    rcases hra : refresh_access_token w.config r w.refreshResponse with
      ⟨nt, req, saved⟩
    rw [hra] at h1
    simp only at h1
    subst h1
    simp [hne, hra]
  exact ⟨h1, h2, ensure_flow_run_of_no_valid_token w c hc h2⟩

/-- Witness for C4: in `stale401World` the refresh endpoint answers
HTTP 401; no token is obtained and the interactive flow is run. -/
theorem C4_witness :
    (refresh_access_token stale401World.config "R"
        stale401World.refreshResponse).1 = none ∧
    (get_valid_token stale401World).1 = none ∧
    (ensure_authenticated stale401World).2.loginFlowRun = true :=
  C4_refresh_failure_falls_through stale401World sampleTokens sampleConfig
    "R" (by decide) rfl (by decide) rfl (by decide) rfl
    (by
      intro body h
      rw [show stale401World.refreshResponse =
        HttpResult.ok 401 refreshBody from rfl] at h
      injection h with h1 h2
      exact absurd h1 (by decide))

/-- Claim C5: when no step produced a token, `ensure_authenticated`
raises `SystemExit(1)`; and with no loaded config, no legacy token and
no stored credential, it does so without running the interactive flow
and without any refresh request. -/
theorem C5_terminal_failure :
    (∀ w : World,
      truthy (get_valid_token w).1 = none →
      truthy (authenticate_user w.config w.loginFlowSucceeds
          w.tokensAfterLogin).1 = none →
      (ensure_authenticated w).1 = EnsureResult.exit 1) ∧
    (∀ w : World, w.config = none → (legacy_step w).1 = none →
      w.storedTokens = none →
      (ensure_authenticated w).1 = EnsureResult.exit 1 ∧
      (ensure_authenticated w).2.loginFlowRun = false ∧
      (ensure_authenticated w).2.refreshRequest = false) := by
  have main : ∀ w : World,
      truthy (get_valid_token w).1 = none →
      truthy (authenticate_user w.config w.loginFlowSucceeds
          w.tokensAfterLogin).1 = none →
      (ensure_authenticated w).1 = EnsureResult.exit 1 := by
    intro w h1 h2
    unfold ensure_authenticated
    rcases hgv : get_valid_token w with ⟨tok, eff⟩
    rw [hgv] at h1
    simp only at h1
    rcases hau : authenticate_user w.config w.loginFlowSucceeds
        w.tokensAfterLogin with ⟨tok2, fr⟩
    rw [hau] at h2
    simp only at h2
    simp [h1, h2]
  refine ⟨main, fun w hc hleg hst => ?_⟩
  have hgv : get_valid_token w =
      (none, { noEffects with probeRequest := (legacy_step w).2 }) := by
    rw [get_valid_token_legacy_none w hleg]
    unfold stored_step
    rw [hst]
  have hau : authenticate_user w.config w.loginFlowSucceeds
      w.tokensAfterLogin = (none, false) := by
    rw [hc]
    rfl
  refine ⟨main w (by rw [hgv]; rfl) (by rw [hau]; rfl), ?_, ?_⟩ <;>
    unfold ensure_authenticated <;> rw [hgv, hau] <;> rfl

/-- Witness for C5: in `emptyWorld` (no config, no legacy file, empty
store) the call exits with code 1 having made no login or refresh
request. -/
theorem C5_witness :
    (ensure_authenticated emptyWorld).1 = EnsureResult.exit 1 ∧
    (ensure_authenticated emptyWorld).2.loginFlowRun = false ∧
    (ensure_authenticated emptyWorld).2.refreshRequest = false :=
  C5_terminal_failure.2 emptyWorld rfl rfl rfl

/-- The effects of `ensure_authenticated` inherit the refresh flag from
`get_valid_token`, and its token source is that of `get_valid_token`,
`login`, or nothing. -/
theorem ensure_source_cases (w : World) :
    (ensure_authenticated w).2.refreshRequest =
      (get_valid_token w).2.refreshRequest ∧
    ((ensure_authenticated w).2.source = (get_valid_token w).2.source ∨
      (ensure_authenticated w).2.source = some TokenSource.login ∨
      (ensure_authenticated w).2.source = none) := by
  unfold ensure_authenticated
  rcases hgv : get_valid_token w with ⟨tok, eff⟩
  simp only
  cases htr : truthy tok with
  | some t => exact ⟨rfl, Or.inl rfl⟩
  | none =>
    rcases hau : authenticate_user w.config w.loginFlowSucceeds
        w.tokensAfterLogin with ⟨tok2, fr⟩
    simp only
    cases htr2 : truthy tok2 with
    | some t => exact ⟨rfl, Or.inr (Or.inl rfl)⟩
    | none => exact ⟨rfl, Or.inr (Or.inr rfl)⟩

/-- After `clear_credentials`, `get_valid_token` issues no refresh
request and any token it returns comes from the legacy path. -/
theorem gvt_after_clear (w : World) :
    (get_valid_token (clear_credentials w)).2.refreshRequest = false ∧
    ((get_valid_token (clear_credentials w)).2.source =
        some TokenSource.legacy ∨
      (get_valid_token (clear_credentials w)).2.source = none) := by
  cases hl : (legacy_step (clear_credentials w)).1 with
  | some t =>
    rw [get_valid_token_legacy_some _ t hl]
    exact ⟨rfl, Or.inl rfl⟩
  | none =>
    rw [get_valid_token_legacy_none _ hl]
    exact ⟨rfl, Or.inr rfl⟩

/-- Claim C6 counterexample: in `legacyWorld` the token "A" returned by
`ensure_authenticated` comes from the legacy file; `clear_credentials`
only clears the store, so the next call returns the very same token,
contradicting "the next call does not return that same token". -/
theorem C6_counterexample :
    (ensure_authenticated legacyWorld).1 = EnsureResult.token "A" ∧
    (ensure_authenticated (clear_credentials legacyWorld)).1 =
      EnsureResult.token "A" := by
  exact ⟨rfl, rfl⟩

/-- Claim C6 amended: after `clear_credentials` the stored-credential
step misses and falls through — the store holds nothing, the stored and
refresh steps contribute no token and no refresh request is made — so a
previously stored token is not returned again; a token that is still
reachable through the legacy file or re-obtained by interactive login
may however be returned. -/
theorem C6_clear_forces_stored_miss (w : World) :
    (clear_credentials w).storedTokens = none ∧
    (∀ pr, stored_step (clear_credentials w) pr =
      (none, { noEffects with probeRequest := pr })) ∧
    (ensure_authenticated (clear_credentials w)).2.refreshRequest = false ∧
    (ensure_authenticated (clear_credentials w)).2.source ≠
      some TokenSource.stored ∧
    (ensure_authenticated (clear_credentials w)).2.source ≠
      some TokenSource.refreshed := by
  obtain ⟨hrr, hsrc⟩ := ensure_source_cases (clear_credentials w)
  obtain ⟨hrr2, hsrc2⟩ := gvt_after_clear w
  refine ⟨rfl, fun pr => rfl, by rw [hrr]; exact hrr2, ?_, ?_⟩
  · rcases hsrc with h | h | h <;> rw [h]
    · rcases hsrc2 with h2 | h2 <;> rw [h2] <;> simp
    · simp
    · simp
  · rcases hsrc with h | h | h <;> rw [h]
    · rcases hsrc2 with h2 | h2 <;> rw [h2] <;> simp
    · simp
    · simp

end AuthManager
